/-
Verification of the Quiz-Bot repository (app/config.py, app/models.py,
app/text_utils.py, app/qa.py, app/hints.py, app/handlers.py, app/main.py).

Shallow embedding conventions:
  * Python strings are modelled as `List Char`; Python string truthiness is
    non-emptiness.
  * Python `bytes` values are modelled as `List Nat`; `Optional[bytes]` is
    `Option (List Nat)` and its truthiness is "some and non-empty".
  * The external collaborators declared out of scope by the code (the
    FusionBrain image fetch `FusionBrainClient.text2image`, `random.shuffle`,
    `difflib.SequenceMatcher(...).ratio`, `gTTS`) are oracles carried in a
    `Ctx` record; an exception thrown by an external call is an `Except.error`.
  * The aiogram transport is reduced to discrete events dispatched to the
    handlers of app/handlers.py in their registration order; outbound chat
    messages are modelled by the `Out` inductive.
-/
import Mathlib

set_option maxHeartbeats 1000000
set_option maxRecDepth 100000

/-- Decidable equality for `Except`, used to evaluate the embedding on
concrete inputs. -/
instance {α β : Type} [DecidableEq α] [DecidableEq β] : DecidableEq (Except α β) := fun x y =>
  match x, y with
  | .error a, .error b =>
    if h : a = b then isTrue (by rw [h]) else isFalse (by intro hh; cases hh; exact h rfl)
  | .ok a, .ok b =>
    if h : a = b then isTrue (by rw [h]) else isFalse (by intro hh; cases hh; exact h rfl)
  | .error _, .ok _ => isFalse (by intro hh; cases hh)
  | .ok _, .error _ => isFalse (by intro hh; cases hh)

/-! ## Python string primitives -/

/-- Python `\s` / `str.strip` whitespace (the ASCII portion, which covers all
inputs considered here). -/
def pyIsSpace (c : Char) : Bool :=
  c = ' ' || c = '\t' || c = '\n' || c = '\r' || c = '\x0b' || c = '\x0c'

/-- Python `str.strip()`. -/
def pyStrip (l : List Char) : List Char :=
  ((l.dropWhile pyIsSpace).reverse.dropWhile pyIsSpace).reverse

/-- Cyrillic range а..я (U+0430..U+044F), as in the regexes of qa.py. -/
def isCyrLower (c : Char) : Bool := 'а' ≤ c && c ≤ 'я'

/-- Cyrillic range А..Я (U+0410..U+042F). -/
def isCyrUpper (c : Char) : Bool := 'А' ≤ c && c ≤ 'Я'

/-- Python `str.lower()` on the characters that occur in this development:
ASCII letters, Cyrillic А..Я and Ё; all other characters are fixed. -/
def pyLower (c : Char) : Char :=
  if 'A' ≤ c && c ≤ 'Z' then Char.ofNat (c.toNat + 32)
  else if isCyrUpper c then Char.ofNat (c.toNat + 32)
  else if c = 'Ё' then 'ё'
  else c

/-- Character class `[A-Za-zА-Яа-я0-9\-]` of qa.py's `pick_keyword`. -/
def isWordChar (c : Char) : Bool :=
  ('A' ≤ c && c ≤ 'Z') || ('a' ≤ c && c ≤ 'z') || isCyrUpper c || isCyrLower c
    || c.isDigit || c = '-'

/-- Worker for `wordRuns`; `cur` is the word run currently being read,
reversed (empty when outside a run). -/
def wordRunsAux : List Char → List Char → List (List Char)
  | [], cur => if cur.isEmpty then [] else [cur.reverse]
  | c :: rest, cur =>
    if isWordChar c then wordRunsAux rest (c :: cur)
    else if cur.isEmpty then wordRunsAux rest []
    else cur.reverse :: wordRunsAux rest []

/-- Embeds `re.findall(r"[A-Za-zА-Яа-я0-9\-]+", s)`: the maximal runs of word
characters, in order. -/
def wordRuns (l : List Char) : List (List Char) := wordRunsAux l []

/-- Worker for `tokenize_sentences`: splits at `(?<=[\.\!\?])\s+`, i.e. at a
maximal whitespace run whose preceding character is `.`, `!` or `?`.
`acc` holds the current segment reversed, so `acc.head?` is the previous
character; `skipping` is true while the remainder of the whitespace run that
triggered a split is being consumed (the regex eats the whole `\s+` run). -/
def sentSplitAux : Bool → List Char → List Char → List (List Char)
  | _, [], acc => [acc.reverse]
  | skipping, c :: rest, acc =>
    if skipping && pyIsSpace c then
      sentSplitAux true rest acc
    else if pyIsSpace c && (acc.head? = some '.' || acc.head? = some '!' || acc.head? = some '?') then
      acc.reverse :: sentSplitAux true rest []
    else
      sentSplitAux false rest (c :: acc)

/-- qa.py `tokenize_sentences`. -/
def tokenize_sentences (text : List Char) : List (List Char) :=
  ((sentSplitAux false (pyStrip text) []).map pyStrip).filter (fun p => !p.isEmpty)

/-- Python string `<` (lexicographic on code points). -/
def lexLt : List Char → List Char → Bool
  | [], [] => false
  | [], _ :: _ => true
  | _ :: _, [] => false
  | a :: as, b :: bs => if a < b then true else if b < a then false else lexLt as bs

/-- The stop-word set `RU_STOP` of qa.py. -/
def RU_STOP : List (List Char) :=
  (["и", "в", "во", "не", "что", "он", "она", "как", "а", "но", "это", "из",
    "у", "я", "мы", "вы", "они", "бы", "к", "по", "же", "ли", "или", "если",
    "то", "на", "с", "со", "от", "до", "за", "при", "для", "о", "об", "обо"]
   ).map String.toList

/-- Holds when `w` precedes `v` under the sort key `(-len(w), w)` of `pick_keyword`. -/
def keywordBetter (w v : List Char) : Bool :=
  v.length < w.length || (v.length = w.length && lexLt w v)

/-- qa.py `pick_keyword`: word runs, lowered, stop words removed, sorted by
`(-len, lexicographic)`, first element (the fold keeps the earliest element
among equal keys, like Python's stable sort). -/
def pick_keyword (sentence : List Char) : Option (List Char) :=
  let words := wordRuns sentence
  let words_norm :=
    (words.map (fun w => w.map pyLower)).filter (fun w => !w.isEmpty && !(w ∈ RU_STOP : Bool))
  match words_norm with
  | [] => none
  | w :: ws => some (ws.foldl (fun best x => if keywordBetter x best then x else best) w)

/-- Case-insensitive character equality (re.IGNORECASE). -/
def ciEq (a b : Char) : Bool := pyLower a = pyLower b

/-- Does `hay` start with `needle`, case-insensitively? -/
def startsWithCI : List Char → List Char → Bool
  | [], _ => true
  | _ :: _, [] => false
  | n :: ns, h :: hs => ciEq n h && startsWithCI ns hs

/-- Embeds `re.sub(re.escape(needle), repl, hay, count=1, flags=re.IGNORECASE)`:
replace the first case-insensitive occurrence of `needle` in `hay`. -/
def replaceFirstCI (needle repl : List Char) : List Char → List Char
  | [] => if needle.isEmpty then repl else []
  | h :: hs =>
    if startsWithCI needle (h :: hs) then repl ++ (h :: hs).drop needle.length
    else h :: replaceFirstCI needle repl hs

/-- qa.py `make_gap_question`. -/
def make_gap_question (sentence keyword : List Char) : List Char × List Char :=
  ("Заполните пропуск: ".toList ++ replaceFirstCI keyword "_____ ".toList sentence, keyword)

/-- qa.py `make_choice_question`. `sh` is the `random.shuffle` oracle: the
`cnt`-th shuffle call in this generation run rearranges its argument by
`sh cnt`; the returned `Nat` is the updated call counter. -/
def make_choice_question (sh : Nat → List (List Char) → List (List Char)) (cnt : Nat)
    (key : List Char) (distractors : List (List Char)) (sentence : List Char) :
    (List Char × List Char) × Nat :=
  let pool := distractors.filter (fun d => !(d.map pyLower = key.map pyLower) && 3 ≤ d.length)
  let pool := sh cnt pool
  let options := key :: pool.take 3
  let options := sh (cnt + 1) options
  let q := "Выберите правильное слово (1 вариант из 4):\n".toList
      ++ replaceFirstCI key "_____ ".toList sentence
      ++ "\nВарианты: ".toList ++ List.intercalate ", ".toList options
  ((q, key), cnt + 2)

/-- Worker for `collapseWs`; `inWs` records whether the previous character
belonged to a whitespace run that has already produced its single space. -/
def collapseWsAux : Bool → List Char → List Char
  | _, [] => []
  | inWs, c :: rest =>
    if pyIsSpace c then
      if inWs then collapseWsAux true rest else ' ' :: collapseWsAux true rest
    else c :: collapseWsAux false rest

/-- Embeds `re.sub(r"\s+", " ", s)`: collapse each whitespace run to one space. -/
def collapseWs (l : List Char) : List Char := collapseWsAux false l

/-! ## Data model (app/models.py) -/

/-- models.py `QAPair`. -/
structure QAPair where
  question : List Char
  answer : List Char
  hint_image : Option (List Nat) := none
deriving DecidableEq

/-- The question-normalisation of qa.py `_unique_push`:
`re.sub(r"\s+", " ", q.strip().lower())`. -/
def normQ (q : List Char) : List Char :=
  collapseWs ((pyStrip q).map pyLower)

/-- qa.py `_unique_push`; the `seen` set is modelled as a list of normalised
questions. -/
def unique_push (qa : List QAPair) (q a : List Char) (seen : List (List Char)) :
    List QAPair × List (List Char) :=
  let nq := normQ q
  if nq ∈ seen then (qa, seen)
  else (qa ++ [{ question := q, answer := a, hint_image := none }], nq :: seen)

/-- The main `while len(qa) < n and i < len(sentences)` loop of
`generate_qa_pairs_simple`. Returns the pairs, the `seen` set and the
shuffle-call counter.  `fuel` makes the recursion structural: each iteration
advances `i` by at least 1 and requires `i < len(sentences)`, so with
`fuel = len(sentences)` (as passed by `generate_qa_pairs_simple`) the fuel
can only run out when the `i < len(sentences)` guard is already false, and
the loop semantics are unchanged. -/
def qaMainLoop (sh : Nat → List (List Char) → List (List Char))
    (sentences all_keywords : List (List Char)) (n step : Nat) :
    Nat → Nat → Bool → Nat → List QAPair → List (List Char) →
    List QAPair × List (List Char) × Nat
  | 0, _, _, cnt, qa, seen => (qa, seen, cnt)
  | fuel + 1, i, toggle, cnt, qa, seen =>
    if qa.length < n ∧ i < sentences.length then
      let sent := sentences.getD i []
      let nexti := i + (if 0 < step then step else 1)
      match pick_keyword sent with
      | some key =>
        if 3 ≤ key.length then
          if toggle ∧ 4 ≤ all_keywords.length then
            let qc := make_choice_question sh cnt key all_keywords sent
            let pushed := unique_push qa qc.1.1 qc.1.2 seen
            qaMainLoop sh sentences all_keywords n step fuel nexti (!toggle) qc.2 pushed.1 pushed.2
          else
            let qg := make_gap_question sent key
            let pushed := unique_push qa qg.1 qg.2 seen
            qaMainLoop sh sentences all_keywords n step fuel nexti (!toggle) cnt pushed.1 pushed.2
        else
          qaMainLoop sh sentences all_keywords n step fuel nexti toggle cnt qa seen
      | none => qaMainLoop sh sentences all_keywords n step fuel nexti toggle cnt qa seen
    else
      (qa, seen, cnt)

/-- The fallback `for sent in sentences` loop of `generate_qa_pairs_simple`
("добиваем до n"): for each sentence with a usable keyword it tries the gap
maker and then the choice maker, stopping as soon as `n` pairs exist. -/
def qaFillLoop (sh : Nat → List (List Char) → List (List Char))
    (all_keywords : List (List Char)) (n : Nat) :
    List (List Char) → Nat → List QAPair → List (List Char) →
    List QAPair × List (List Char) × Nat
  | [], cnt, qa, seen => (qa, seen, cnt)
  | sent :: rest, cnt, qa, seen =>
    if n ≤ qa.length then (qa, seen, cnt)
    else
      match pick_keyword sent with
      | none => qaFillLoop sh all_keywords n rest cnt qa seen
      | some key =>
        if key.length < 3 then qaFillLoop sh all_keywords n rest cnt qa seen
        else
          let qg := make_gap_question sent key
          let p1 := unique_push qa qg.1 qg.2 seen
          if n ≤ p1.1.length then qaFillLoop sh all_keywords n rest cnt p1.1 p1.2
          else
            let qc := make_choice_question sh cnt key all_keywords sent
            let p2 := unique_push p1.1 qc.1.1 qc.1.2 p1.2
            qaFillLoop sh all_keywords n rest qc.2 p2.1 p2.2

/-- qa.py `generate_qa_pairs_simple` (and `generate_qa_pairs`, which merely
runs it in a thread). `ValueError` is `Except.error`. -/
def generate_qa_pairs_simple (sh : Nat → List (List Char) → List (List Char))
    (text : List Char) (n : Nat) : Except String (List QAPair) :=
  let sentences := tokenize_sentences text
  if sentences.isEmpty then
    .error "Не удалось выделить предложения из текста."
  else
    let all_keywords := (sentences.filterMap pick_keyword).filter (fun k => 3 ≤ k.length)
    let step := max 1 (sentences.length / max 1 n)
    let m := qaMainLoop sh sentences all_keywords n step sentences.length 0 true 0 [] []
    let f := if m.1.length < n then qaFillLoop sh all_keywords n sentences m.2.2 m.1 m.2.1
             else m
    .ok (f.1.take n)

/-! ## Session model (app/models.py) and configuration (app/config.py) -/

/-- models.py `Stage` values (the string field `stage`). -/
inductive Stage where
  | IDLE | WAIT_NUM | ASKING | WAIT_ANSWER | CHOOSE_ACTION
deriving DecidableEq

/-- models.py `UserSession`; field defaults are the dataclass defaults. -/
structure UserSession where
  text : List Char := []
  num_questions : Nat := 0
  qa : List QAPair := []
  idx : Nat := 0
  correct : Nat := 0
  wrong : Nat := 0
  stage : Stage := .IDLE
deriving DecidableEq

/-- config.py `validate_settings`, over the three credential strings
(`TELEGRAM_BOT_TOKEN`, `FUSIONBRAIN_API_KEY`, `FUSIONBRAIN_SECRET`).
`RuntimeError` is `Except.error`.  main.py `run_bot` calls this first and
re-raises, so `.error` here is a fatal startup error. -/
def validate_settings (token api_key secret : List Char) : Except String Unit :=
  if token.isEmpty then
    .error "Не указан TELEGRAM_BOT_TOKEN"
  else if api_key.isEmpty || secret.isEmpty then
    .error "Не заданы ключ и секрет FusionBrain API — проверьте переменные окружения."
  else
    .ok ()

/-- The environment of one bot process: the configuration strings plus the
external collaborators as oracles.
  * `fetch p` is the outcome of `FusionBrainClient.text2image` for the hint
    prompt of pair `p` (its list of decoded images; `.error` is a raised
    exception, which `generate_hint_for_pair` catches).
  * `sh` is the `random.shuffle` oracle (see `make_choice_question`).
  * `ratioFn u g` is `difflib.SequenceMatcher(None, u, g).ratio()` — the spec
    reduces the similarity measure to an opaque collaborator contract.
  * `tts t` is `text_to_speech_gtts(t)` (audio bytes or a raised exception). -/
structure Ctx where
  api_key : List Char
  secret : List Char
  fetch : QAPair → Except String (List (List Nat))
  sh : Nat → List (List Char) → List (List Char)
  ratioFn : List Char → List Char → ℚ
  tts : List Char → Except String (List Nat)

/-! ## Answer checking (app/text_utils.py) -/

/-- The character class kept by `normalize_answer`'s
`re.sub(r"[^\w\s\-а-яa-z0-9]", "", value, flags=re.IGNORECASE)`: `\w`
(word characters — here ASCII alphanumerics, underscore and Cyrillic
letters), whitespace and the hyphen. -/
def keepInNormalize (c : Char) : Bool :=
  c.isAlpha || c.isDigit || c = '_' || isCyrUpper c || isCyrLower c
    || c = 'ё' || c = 'Ё' || pyIsSpace c || c = '-'

/-- text_utils.py `normalize_answer`. -/
def normalize_answer (value : List Char) : List Char :=
  let v := (pyStrip value).map pyLower
  let v := v.filter keepInNormalize
  collapseWs v

/-- Does `hay` start with `needle` (exact characters)? -/
def startsWithStr : List Char → List Char → Bool
  | [], _ => true
  | _ :: _, [] => false
  | n :: ns, h :: hs => n = h && startsWithStr ns hs

/-- Python's substring operator `needle in hay` (the empty string is a
substring of everything). -/
def pyInStr (needle : List Char) : List Char → Bool
  | [] => needle.isEmpty
  | h :: hs => startsWithStr needle (h :: hs) || pyInStr needle hs

/-- text_utils.py `is_correct`. The similarity oracle `ratioFn` stands for
`SequenceMatcher(None, user, gold).ratio()` and the float threshold `0.82`
is the rational `41/50` (exact for the string lengths arising here). -/
def is_correct (ratioFn : List Char → List Char → ℚ)
    (user_answer gold_answer : List Char) (threshold : ℚ := 41 / 50) : Bool :=
  let user := normalize_answer user_answer
  let gold := normalize_answer gold_answer
  if user.isEmpty then false
  else if pyInStr user gold || pyInStr gold user then true
  else decide (threshold ≤ ratioFn user gold)

/-! ## Hint pipeline (app/hints.py) -/

/-- Python truthiness of an `Optional[bytes]` field. -/
def pyTruthyBytes : Option (List Nat) → Bool
  | none => false
  | some b => !b.isEmpty

/-- hints.py `generate_hint_for_pair`: skip if the pair already has a truthy
hint; otherwise fetch, store the first returned image if the list is
non-empty, and swallow any exception. -/
def generate_hint_for_pair (fetch : QAPair → Except String (List (List Nat)))
    (p : QAPair) : QAPair :=
  if pyTruthyBytes p.hint_image then p
  else
    match fetch p with
    | .ok [] => p
    | .ok (img :: _) => { p with hint_image := some img }
    | .error _ => p

/-- hints.py `generate_hints_for_pairs`: a no-op when the batch is empty,
credentials are missing, or no pair lacks a hint; otherwise every pair
lacking a hint is processed once by `generate_hint_for_pair` (the
queue/worker fan-out mutates the pairs in place, each exactly once and
independently, so its net effect is this positional map; worker failures are
contained per item). The per-item timeout only shapes the `fetch` outcome. -/
def generate_hints_for_pairs (ctx : Ctx) (pairs : List QAPair) : List QAPair :=
  if pairs.isEmpty || ctx.api_key.isEmpty || ctx.secret.isEmpty then pairs
  else if (pairs.filter (fun p => !pyTruthyBytes p.hint_image)).isEmpty then pairs
  else pairs.map (fun p =>
    if pyTruthyBytes p.hint_image then p else generate_hint_for_pair ctx.fetch p)

/-! ## Conversation handlers (app/handlers.py) -/

/-- The outbound chat messages relevant to the claims; rendering details
(keyboards, markdown, captions) are collapsed into constructor tags. -/
inductive Out where
  | greet
  | askText
  | chooseKeyboard
  | ttsAudio
  | ttsFollowup
  | ttsError
  | quizPrompt
  | forming
  | question (num total : Nat) (q : List Char) (hasHint : Bool)
  | errorMsg
  | wrongTry
  | revealAnswer (a : List Char)
  | retryPrompt
  | stats (correct wrong total : Nat)
  | indexError
  | ack
deriving DecidableEq

/-- handlers.py `send_stats`: emit the round statistics, then reset every
session field to its default. -/
def send_stats (s : UserSession) : UserSession × List Out :=
  ({}, [Out.stats s.correct s.wrong s.qa.length])

/-- The per-question hint retry inside `ask_next_question`: if the current
pair has no truthy hint, run the batch fetch on the singleton and keep the
result (exceptions are caught and logged). -/
def ensure_hint (ctx : Ctx) (q : QAPair) : QAPair :=
  if pyTruthyBytes q.hint_image then q
  else (generate_hints_for_pairs ctx [q]).getD 0 q

/-- handlers.py `ask_next_question`. -/
def ask_next_question (ctx : Ctx) (s : UserSession) : UserSession × List Out :=
  if s.qa.length ≤ s.idx then send_stats s
  else
    let q := s.qa.getD s.idx { question := [], answer := [], hint_image := none }
    let q2 := ensure_hint ctx q
    let qa2 := s.qa.set s.idx q2
    ({ s with qa := qa2, stage := .WAIT_ANSWER },
     [Out.question (s.idx + 1) qa2.length q2.question (pyTruthyBytes q2.hint_image)])

/-- handlers.py `start` (the `/start` command): reset the session in place
and greet. -/
def start_handler (_ : UserSession) : UserSession × List Out :=
  ({}, [Out.greet, Out.askText])

/-- handlers.py `receive_text` (guard: text of length ≥ 200). -/
def receive_text (t : List Char) (s : UserSession) : UserSession × List Out :=
  ({ s with text := t, stage := .CHOOSE_ACTION }, [Out.chooseKeyboard])

/-- handlers.py `on_tts`. -/
def on_tts (ctx : Ctx) (s : UserSession) : UserSession × List Out :=
  if s.stage ≠ .CHOOSE_ACTION then (s, [Out.ack])
  else
    match ctx.tts s.text with
    | .ok _ => (s, [Out.ttsAudio, Out.ttsFollowup])
    | .error _ => (s, [Out.ttsError])

/-- handlers.py `on_quiz`. -/
def on_quiz (s : UserSession) : UserSession × List Out :=
  if s.stage ≠ .CHOOSE_ACTION then (s, [Out.ack])
  else ({ s with stage := .WAIT_NUM }, [Out.quizPrompt])

/-- Embeds `int(...)` on the 1–2 digit strings admitted by the digit guard. -/
def digitsToNat (l : List Char) : Nat :=
  l.foldl (fun acc c => acc * 10 + (c.toNat - 48)) 0

/-- handlers.py `receive_num` (guard: text matching `^\d{1,2}$`). -/
def receive_num (ctx : Ctx) (t : List Char) (s : UserSession) : UserSession × List Out :=
  if s.stage ≠ .WAIT_NUM then (s, [])
  else
    let n := max 1 (min 20 (digitsToNat t))
    let s1 := { s with num_questions := n }
    match generate_qa_pairs_simple ctx.sh s1.text n with
    | .error _ => ({ s1 with stage := .IDLE }, [Out.forming, Out.errorMsg])
    | .ok pairs =>
      let pairs2 := generate_hints_for_pairs ctx pairs
      let s2 := { s1 with qa := pairs2, idx := 0, correct := 0, wrong := 0, stage := .ASKING }
      let r := ask_next_question ctx s2
      (r.1, Out.forming :: r.2)

/-- handlers.py `receive_answer` (the catch-all `F.text` handler). -/
def receive_answer (ctx : Ctx) (t : List Char) (s : UserSession) : UserSession × List Out :=
  if s.stage ≠ .WAIT_ANSWER ∨ s.qa.length ≤ s.idx then
    if 200 ≤ t.length then receive_text t s else (s, [])
  else if t.isEmpty then (s, [])
  else
    let q := s.qa.getD s.idx { question := [], answer := [], hint_image := none }
    if is_correct ctx.ratioFn t q.answer then
      let s1 := { s with correct := s.correct + 1, idx := s.idx + 1, stage := .ASKING }
      let r := ask_next_question ctx s1
      (r.1, Out.revealAnswer q.answer :: r.2)
    else
      (s, [Out.wrongTry])

/-- handlers.py `on_retry`. -/
def on_retry (s : UserSession) : UserSession × List Out :=
  if s.stage ≠ .WAIT_ANSWER then (s, [Out.ack]) else (s, [Out.retryPrompt])

/-- handlers.py `on_reveal`. The item lookup `session.qa[session.idx]` is
guarded only by the stage check; an out-of-range index would raise
`IndexError`, modelled by the `Out.indexError` marker. -/
def on_reveal (ctx : Ctx) (s : UserSession) : UserSession × List Out :=
  if s.stage ≠ .WAIT_ANSWER then (s, [Out.ack])
  else
    match s.qa.get? s.idx with
    | none => (s, [Out.indexError])
    | some q =>
      let s1 := { s with wrong := s.wrong + 1, idx := s.idx + 1, stage := .ASKING }
      let r := ask_next_question ctx s1
      (r.1, Out.revealAnswer q.answer :: r.2)

/-- The transport events: the `/start` command, any other text message, and
the four callback buttons. -/
inductive Event where
  | start
  | msg (t : List Char)
  | cbTts
  | cbQuiz
  | cbRetry
  | cbReveal

/-- The guard `^\d{1,2}$` of `receive_num`'s registration. -/
def isDigits12 (t : List Char) : Bool :=
  decide (1 ≤ t.length) && decide (t.length ≤ 2) && t.all Char.isDigit

/-- One event processed against one session, dispatching a text message to
the first matching handler in registration order (`receive_text`'s length
guard, then `receive_num`'s digit guard, then the catch-all
`receive_answer`). -/
def step (ctx : Ctx) (s : UserSession) : Event → UserSession × List Out
  | .start => start_handler s
  | .msg t =>
    if 200 ≤ t.length then receive_text t s
    else if isDigits12 t then receive_num ctx t s
    else receive_answer ctx t s
  | .cbTts => on_tts ctx s
  | .cbQuiz => on_quiz s
  | .cbRetry => on_retry s
  | .cbReveal => on_reveal ctx s

/-- Process a sequence of events, collecting the outbound messages. -/
def runEvents (ctx : Ctx) (s : UserSession) : List Event → UserSession × List Out
  | [] => (s, [])
  | e :: es =>
    let r := step ctx s e
    let rs := runEvents ctx r.1 es
    (rs.1, r.2 ++ rs.2)

/-- Session states reachable from the fresh default session by any event
sequence (models.py `get_session` creates the default on first access). -/
inductive Reachable (ctx : Ctx) : UserSession → Prop where
  | init : Reachable ctx {}
  | next {s : UserSession} (e : Event) : Reachable ctx s → Reachable ctx (step ctx s e).1

/-- The session invariant: the index never leaves `[0, len(qa)]`, and while
an answer is awaited it is strictly inside. -/
def SessionInv (s : UserSession) : Prop :=
  s.idx ≤ s.qa.length ∧ (s.stage = .WAIT_ANSWER → s.idx < s.qa.length)

/-! ## Concrete fixtures for witnesses and counterexamples -/

/-- A bot context with no image credentials and inert oracles. -/
def ctxNoCreds : Ctx :=
  { api_key := [], secret := [],
    fetch := fun _ => .ok [], sh := fun _ l => l,
    ratioFn := fun _ _ => 0, tts := fun _ => .error "gTTS failure" }

/-- A context with credentials whose fetch succeeds exactly on the pair with
question "A" and raises on every other pair. -/
def ctxHints : Ctx :=
  { api_key := "k".toList, secret := "s".toList,
    fetch := fun p => if p.question = "A".toList then .ok [[1, 2]] else .error "boom",
    sh := fun _ l => l, ratioFn := fun _ _ => 0, tts := fun _ => .error "gTTS failure" }

/-- A 200-character message: a single sentence whose only word is a
200-letter keyword, so extraction yields a usable item. -/
def longWordText : List Char := List.replicate 200 'a'

/-- A 200-character message of 50 sentences whose only words have length 2,
so extraction finds sentences but zero usable keywords. -/
def shortWordsText : List Char := (List.replicate 50 "ab. ".toList).flatten

/-- A second text of the same shape with different letters. -/
def shortWordsText2 : List Char := (List.replicate 50 "cd. ".toList).flatten

/-! ## Helper lemmas -/

/-- The batch hint fetch preserves the number of items (it mutates in
place). -/
theorem generate_hints_for_pairs_length (ctx : Ctx) (ps : List QAPair) :
    (generate_hints_for_pairs ctx ps).length = ps.length := by
  unfold generate_hints_for_pairs
  split
  · rfl
  · split
    · rfl
    · simp

/-- The per-item hint fetch never touches the `answer` field. -/
theorem generate_hint_for_pair_answer (f : QAPair → Except String (List (List Nat)))
    (p : QAPair) : (generate_hint_for_pair f p).answer = p.answer := by
  unfold generate_hint_for_pair
  split
  · rfl
  · split <;> rfl

/-- The per-question hint retry never touches the `answer` field. -/
theorem ensure_hint_answer (ctx : Ctx) (q : QAPair) :
    (ensure_hint ctx q).answer = q.answer := by
  unfold ensure_hint
  split
  · rfl
  · rename_i hq
    unfold generate_hints_for_pairs
    split
    · rfl
    · split
      · rfl
      · simp only [List.map_cons, List.map_nil, List.getD_cons_zero]
        rw [if_neg hq]
        exact generate_hint_for_pair_answer ctx.fetch q

/-- The default session satisfies the invariant. -/
theorem sessionInv_default : SessionInv {} := by
  constructor
  · simp
  · intro h
    simp [UserSession.stage] at h

/-- Lemma: `send_stats` re-establishes the invariant (it resets the session). -/
theorem sessionInv_send_stats (s : UserSession) : SessionInv (send_stats s).1 :=
  sessionInv_default

/-- Lemma: `ask_next_question` establishes the invariant unconditionally: it either
completes the round (reset) or presents the question at a strictly in-range
index. -/
theorem sessionInv_ask_next (ctx : Ctx) (s : UserSession) :
    SessionInv (ask_next_question ctx s).1 := by
  unfold ask_next_question
  split
  · exact sessionInv_send_stats s
  · rename_i h
    constructor
    · simp only [List.length_set]
      omega
    · intro _
      simp only [List.length_set]
      omega

/-- Lemma: `ask_next_question` never reports an index error. -/
theorem ask_next_no_indexError (ctx : Ctx) (s : UserSession) :
    Out.indexError ∉ (ask_next_question ctx s).2 := by
  unfold ask_next_question
  split
  · simp [send_stats]
  · simp

/-- Every handler preserves the session invariant. -/
theorem step_preserves_sessionInv (ctx : Ctx) (s : UserSession) (e : Event)
    (h : SessionInv s) : SessionInv (step ctx s e).1 := by
  obtain ⟨h1, h2⟩ := h
  cases e with
  | start => exact sessionInv_default
  | msg t =>
    simp only [step]
    split
    · exact ⟨h1, by simp [receive_text]⟩
    · split
      · unfold receive_num
        split
        · exact ⟨h1, h2⟩
        · dsimp only
          split
          · exact ⟨h1, by intro hh; simp at hh⟩
          · exact sessionInv_ask_next ctx _
      · unfold receive_answer
        split
        · exact ⟨h1, h2⟩
        · split
          · exact ⟨h1, h2⟩
          · dsimp only
            split
            · exact sessionInv_ask_next ctx _
            · exact ⟨h1, h2⟩
  | cbTts =>
    simp only [step]
    unfold on_tts
    split
    · exact ⟨h1, h2⟩
    · split <;> exact ⟨h1, h2⟩
  | cbQuiz =>
    simp only [step]
    unfold on_quiz
    split
    · exact ⟨h1, h2⟩
    · exact ⟨h1, by intro hh; simp at hh⟩
  | cbRetry =>
    simp only [step]
    unfold on_retry
    split <;> exact ⟨h1, h2⟩
  | cbReveal =>
    simp only [step]
    unfold on_reveal
    split
    · exact ⟨h1, h2⟩
    · split
      · exact ⟨h1, h2⟩
      · exact sessionInv_ask_next ctx _

/-- Every reachable session state satisfies the invariant. -/
theorem reachable_sessionInv (ctx : Ctx) (s : UserSession)
    (h : Reachable ctx s) : SessionInv s := by
  induction h with
  | init => exact sessionInv_default
  | next e _ ih => exact step_preserves_sessionInv ctx _ e ih

/-! ## Claim C1 -/

/-- C1 counterexample: with a bot token present but both image credentials
absent, `validate_settings` raises (`run_bot` calls it first and re-raises),
so startup does not succeed — refuting the claim that a missing bot token is
the only fatal startup error. -/
theorem c1_counterexample :
    validate_settings "token123".toList [] [] =
      .error "Не заданы ключ и секрет FusionBrain API — проверьте переменные окружения." := by
  rfl

/-- C1 (amended): startup validation treats missing image-service
credentials as fatal too — `validate_settings` succeeds exactly when the bot
token, the API key and the secret are all non-empty.  Independently, when
either image credential is absent every hint batch call is a no-op. -/
theorem c1_startup_validation :
    (∀ token api_key secret : List Char,
      validate_settings token api_key secret = .ok () ↔
        token ≠ [] ∧ api_key ≠ [] ∧ secret ≠ []) ∧
    (∀ (ctx : Ctx) (pairs : List QAPair), ctx.api_key = [] ∨ ctx.secret = [] →
      generate_hints_for_pairs ctx pairs = pairs) := by
  constructor
  · intro token api_key secret
    rcases token with _ | ⟨c, cs⟩ <;> rcases api_key with _ | ⟨k, ks⟩ <;>
      rcases secret with _ | ⟨e, es⟩ <;> simp [validate_settings]
  · intro ctx pairs hcred
    unfold generate_hints_for_pairs
    rcases hcred with hc | hc <;>
      rw [if_pos (by simp [hc])]

/-- C1 witness: a fully-configured bot validates, and a credential-less
context leaves a batch untouched. -/
theorem c1_witness :
    validate_settings "t".toList "k".toList "s".toList = .ok () ∧
    generate_hints_for_pairs ctxNoCreds
      [{ question := "q".toList, answer := "a".toList, hint_image := none }] =
      [{ question := "q".toList, answer := "a".toList, hint_image := none }] :=
  ⟨(c1_startup_validation.1 "t".toList "k".toList "s".toList).mpr (by decide),
   c1_startup_validation.2 ctxNoCreds _ (Or.inl rfl)⟩

/-! ## Claim C10 -/

/-- C10: any answer whose normalisation is empty is rejected for every gold
answer and every similarity oracle, even though the empty string is a
substring of every normalised gold answer. -/
theorem c10_empty_normalization_rejected (ratioFn : List Char → List Char → ℚ)
    (u g : List Char) (h : normalize_answer u = []) :
    is_correct ratioFn u g = false ∧
    pyInStr (normalize_answer u) (normalize_answer g) = true := by
  constructor
  · simp [is_correct, h]
  · rw [h]
    cases normalize_answer g <;> simp [pyInStr, startsWithStr]

/-- C10 witness: punctuation-only input is rejected even under a similarity
oracle that reports a perfect ratio. -/
theorem c10_witness :
    is_correct (fun _ _ => (1 : ℚ)) "!!!".toList "abc".toList = false ∧
    pyInStr (normalize_answer "!!!".toList) (normalize_answer "abc".toList) = true :=
  c10_empty_normalization_rejected (fun _ _ => (1 : ℚ)) "!!!".toList "abc".toList (by decide)

/-! ## Claim C7 -/

/-- C7 counterexample: the user answer "!!!" normalises to the empty string,
which is a substring of the normalised gold answer "abc", yet `is_correct`
rejects it (even under a perfect similarity ratio) — refuting "accepts any
user answer whose normalized form is a substring of the normalized gold
answer". -/
theorem c7_counterexample :
    is_correct (fun _ _ => (1 : ℚ)) "!!!".toList "abc".toList = false ∧
    pyInStr (normalize_answer "!!!".toList) (normalize_answer "abc".toList) = true ∧
    (41 : ℚ) / 50 ≤ 1 := by
  refine ⟨by decide, by decide, by norm_num⟩

/-- C7 (amended): `is_correct` accepts exactly the answers whose normalised
form is non-empty and either is a substring of the normalised gold answer
(or vice versa, regardless of similarity) or reaches the 0.82 similarity
threshold. -/
theorem c7_fuzzy_match_boundary (ratioFn : List Char → List Char → ℚ)
    (u g : List Char) :
    is_correct ratioFn u g =
      (!(normalize_answer u).isEmpty &&
        (pyInStr (normalize_answer u) (normalize_answer g) ||
         pyInStr (normalize_answer g) (normalize_answer u) ||
         decide ((41 : ℚ) / 50 ≤ ratioFn (normalize_answer u) (normalize_answer g)))) := by
  unfold is_correct
  dsimp only
  split
  · rename_i h
    simp [h]
  · rename_i h
    split
    · rename_i h2
      simp only [Bool.not_eq_true] at h
      simp [h, h2]
    · rename_i h2
      simp only [Bool.not_eq_true] at h
      simp only [Bool.or_eq_true] at h2
      push_neg at h2
      simp [h, h2.1, h2.2]

/-! ## Claim C5 -/

/-- An item with a populated (truthy) hint is returned unchanged at its
position by the batch hint fetch. -/
theorem generate_hints_preserves_populated (ctx : Ctx) (pairs : List QAPair)
    (i : Nat) (p : QAPair) (h : pairs.get? i = some p)
    (hp : pyTruthyBytes p.hint_image = true) :
    (generate_hints_for_pairs ctx pairs).get? i = some p := by
  unfold generate_hints_for_pairs
  split
  · exact h
  · split
    · exact h
    · rw [List.get?_map, h]
      simp [hp]

/-- C5: hint filling is idempotent — any item the first orchestrator run
leaves with a populated `hintImage` is byte-for-byte unchanged by a second
run on the same batch (it is never overwritten; `generate_hint_for_pair` and
the batch target filter both skip truthy items, so it is not fetched
again). -/
theorem c5_hint_fill_idempotent (ctx : Ctx) (pairs : List QAPair)
    (i : Nat) (p : QAPair)
    (h : (generate_hints_for_pairs ctx pairs).get? i = some p)
    (hp : pyTruthyBytes p.hint_image = true) :
    (generate_hints_for_pairs ctx (generate_hints_for_pairs ctx pairs)).get? i = some p :=
  generate_hints_preserves_populated ctx (generate_hints_for_pairs ctx pairs) i p h hp

/-- C5 witness: an item already carrying hint bytes survives two runs. -/
theorem c5_witness :
    (generate_hints_for_pairs ctxHints
      (generate_hints_for_pairs ctxHints
        [{ question := "A".toList, answer := "x".toList, hint_image := some [7] }])).get? 0 =
      some { question := "A".toList, answer := "x".toList, hint_image := some [7] } :=
  c5_hint_fill_idempotent ctxHints
    [{ question := "A".toList, answer := "x".toList, hint_image := some [7] }]
    0 { question := "A".toList, answer := "x".toList, hint_image := some [7] }
    (by decide) (by decide)

/-! ## Claim C4 -/

/-- C4: partial-failure tolerance of the batch hint fetch.  For a batch of
items with no hints yet and valid credentials, the call returns a batch of
the same length (the embedding is a total function: the queue/join worker
pool always terminates and no per-item failure escalates — per-item
exceptions are absorbed into the item's own outcome), and position by
position: an item whose fetch returns a non-empty image list gets that first
image as its hint, while an item whose fetch returns no images or raises is
left with an empty `hintImage`. -/
theorem c4_partial_failure_tolerance (ctx : Ctx) (pairs : List QAPair)
    (hk : ctx.api_key ≠ []) (hs : ctx.secret ≠ [])
    (hnone : ∀ p ∈ pairs, p.hint_image = none) :
    (generate_hints_for_pairs ctx pairs).length = pairs.length ∧
    ∀ i p, pairs.get? i = some p →
      ((∀ img rest, ctx.fetch p = .ok (img :: rest) →
          (generate_hints_for_pairs ctx pairs).get? i =
            some { p with hint_image := some img }) ∧
       (ctx.fetch p = .ok [] → (generate_hints_for_pairs ctx pairs).get? i = some p) ∧
       (∀ e, ctx.fetch p = .error e →
          (generate_hints_for_pairs ctx pairs).get? i = some p)) := by
  refine ⟨generate_hints_for_pairs_length ctx pairs, ?_⟩
  intro i p hip
  have hmem : p ∈ pairs := List.get?_mem hip
  have hpn : p.hint_image = none := hnone p hmem
  have htr : pyTruthyBytes p.hint_image = false := by rw [hpn]; rfl
  have hc1 : (pairs.isEmpty || ctx.api_key.isEmpty || ctx.secret.isEmpty) = false := by
    have hne : pairs ≠ [] := List.ne_nil_of_mem hmem
    simp [List.isEmpty_iff, hne, hk, hs]
  have hc2 : (pairs.filter (fun q => !pyTruthyBytes q.hint_image)).isEmpty = false := by
    have hmem2 : p ∈ pairs.filter (fun q => !pyTruthyBytes q.hint_image) :=
      List.mem_filter.mpr ⟨hmem, by simp [htr]⟩
    cases hfil : pairs.filter (fun q => !pyTruthyBytes q.hint_image) with
    | nil => rw [hfil] at hmem2; cases hmem2
    | cons a as => rfl
  refine ⟨?_, ?_, ?_⟩
  · intro img rest hf
    unfold generate_hints_for_pairs
    rw [hc1, hc2]
    simp only [Bool.false_eq_true, if_false]
    rw [List.get?_map, hip]
    simp [htr, generate_hint_for_pair, hf]
  · intro hf
    unfold generate_hints_for_pairs
    rw [hc1, hc2]
    simp only [Bool.false_eq_true, if_false]
    rw [List.get?_map, hip]
    simp [htr, generate_hint_for_pair, hf]
  · intro e hf
    unfold generate_hints_for_pairs
    rw [hc1, hc2]
    simp only [Bool.false_eq_true, if_false]
    rw [List.get?_map, hip]
    simp [htr, generate_hint_for_pair, hf]

/-- C4 witness: with two fresh items of which the first fetch succeeds with
an image and the second raises, the batch populates exactly the first. -/
theorem c4_witness :
    (generate_hints_for_pairs ctxHints
      [{ question := "A".toList, answer := "x".toList, hint_image := none },
       { question := "B".toList, answer := "y".toList, hint_image := none }]).get? 0 =
      some { question := "A".toList, answer := "x".toList, hint_image := some [1, 2] } ∧
    (generate_hints_for_pairs ctxHints
      [{ question := "A".toList, answer := "x".toList, hint_image := none },
       { question := "B".toList, answer := "y".toList, hint_image := none }]).get? 1 =
      some { question := "B".toList, answer := "y".toList, hint_image := none } := by
  constructor
  · exact (((c4_partial_failure_tolerance ctxHints
      [{ question := "A".toList, answer := "x".toList, hint_image := none },
       { question := "B".toList, answer := "y".toList, hint_image := none }]
      (by decide) (by decide) (by decide)).2 0
      { question := "A".toList, answer := "x".toList, hint_image := none }
      (by decide)).1 [1, 2] [] (by rfl))
  · exact (((c4_partial_failure_tolerance ctxHints
      [{ question := "A".toList, answer := "x".toList, hint_image := none },
       { question := "B".toList, answer := "y".toList, hint_image := none }]
      (by decide) (by decide) (by decide)).2 1
      { question := "B".toList, answer := "y".toList, hint_image := none }
      (by decide)).2.2 "boom" (by rfl))

/-! ## Claim C3 -/

/-- C3 (amended): in stage WaitNum with an admitted numeric input, the
outcome of the attempt splits on how extraction fails.  If extraction
raises (the text has no sentences), the error is reported, the stage
returns to Idle, the old items are untouched, and neither a question nor
statistics are emitted.  But if extraction returns zero items without
raising (sentences exist, none has a usable keyword), no error is reported:
the round completes immediately — final statistics `0/0/0` are emitted and
the session resets to defaults. -/
theorem c3_zero_extraction (ctx : Ctx) (s : UserSession) (d : List Char)
    (hst : s.stage = .WAIT_NUM) (_hd : isDigits12 d = true) :
    (∀ e, generate_qa_pairs_simple ctx.sh s.text (max 1 (min 20 (digitsToNat d))) = .error e →
      (receive_num ctx d s).1.stage = .IDLE ∧
      (receive_num ctx d s).1.qa = s.qa ∧
      (receive_num ctx d s).2 = [Out.forming, Out.errorMsg]) ∧
    (generate_qa_pairs_simple ctx.sh s.text (max 1 (min 20 (digitsToNat d))) = .ok [] →
      (receive_num ctx d s).1 = {} ∧
      (receive_num ctx d s).2 = [Out.forming, Out.stats 0 0 0]) := by
  unfold receive_num
  rw [if_neg (by simp [hst])]
  dsimp only
  constructor
  · intro e hg
    rw [hg]
    exact ⟨rfl, rfl, rfl⟩
  · intro hg
    rw [hg]
    exact ⟨rfl, rfl⟩

/-- C3 witness: an empty text raises (error path: error reported, Idle, no
stats), and the 50-sentence text with only 2-letter words returns zero items
(stats path). -/
theorem c3_witness :
    ((receive_num ctxNoCreds ['3'] { stage := .WAIT_NUM }).1.stage = .IDLE ∧
     (receive_num ctxNoCreds ['3'] { stage := .WAIT_NUM }).1.qa = [] ∧
     (receive_num ctxNoCreds ['3'] { stage := .WAIT_NUM }).2 = [Out.forming, Out.errorMsg]) ∧
    ((receive_num ctxNoCreds ['2'] { text := shortWordsText, stage := .WAIT_NUM }).1 = {} ∧
     (receive_num ctxNoCreds ['2'] { text := shortWordsText, stage := .WAIT_NUM }).2 =
       [Out.forming, Out.stats 0 0 0]) :=
  ⟨(c3_zero_extraction ctxNoCreds { stage := .WAIT_NUM } ['3'] rfl (by decide)).1
     "Не удалось выделить предложения из текста." (by rfl),
   (c3_zero_extraction ctxNoCreds { text := shortWordsText, stage := .WAIT_NUM } ['2']
     rfl (by decide)).2 (by decide)⟩


/-- C3 counterexample: a reachable run in which extraction yields zero
candidate items (the submitted 200-character text splits into 50 sentences
but contains no usable keyword) yet, contrary to the claim, no error is
reported and final statistics are emitted: the whole outbound trace is
keyboard, quiz prompt, forming, stats 0/0/0 — with no `errorMsg` and no
question. -/
theorem c3_counterexample :
    (runEvents ctxNoCreds {} [.msg shortWordsText, .cbQuiz, .msg ['2']]).2 =
      [Out.chooseKeyboard, Out.quizPrompt, Out.forming, Out.stats 0 0 0] ∧
    (runEvents ctxNoCreds {} [.msg shortWordsText, .cbQuiz, .msg ['2']]).1.stage = .IDLE := by
  constructor
  · decide
  · decide

/-! ## Claim C8 -/

/-- C8 (amended): when a numeric event is accepted in stage WaitNum the
handler stores the input clamped to [1,20]; the stored value is still that
clamp after the event completes whenever extraction raises or returns at
least one item, but when extraction returns zero items without raising the
round completes within the same event and the end-of-round reset leaves the
stored count at 0. -/
theorem c8_clamped_count (ctx : Ctx) (s : UserSession) (d : List Char)
    (hst : s.stage = .WAIT_NUM) (_hd : isDigits12 d = true) :
    1 ≤ max 1 (min 20 (digitsToNat d)) ∧ max 1 (min 20 (digitsToNat d)) ≤ 20 ∧
    (∀ e, generate_qa_pairs_simple ctx.sh s.text (max 1 (min 20 (digitsToNat d))) = .error e →
      (receive_num ctx d s).1.num_questions = max 1 (min 20 (digitsToNat d))) ∧
    (∀ p ps, generate_qa_pairs_simple ctx.sh s.text (max 1 (min 20 (digitsToNat d))) = .ok (p :: ps) →
      (receive_num ctx d s).1.num_questions = max 1 (min 20 (digitsToNat d))) ∧
    (generate_qa_pairs_simple ctx.sh s.text (max 1 (min 20 (digitsToNat d))) = .ok [] →
      (receive_num ctx d s).1.num_questions = 0) := by
  refine ⟨le_max_left 1 _, ?_, ?_, ?_, ?_⟩
  · have := min_le_left 20 (digitsToNat d)
    omega
  · intro e hg
    unfold receive_num
    rw [if_neg (by simp [hst])]
    dsimp only
    rw [hg]
  · intro p ps hg
    unfold receive_num
    rw [if_neg (by simp [hst])]
    dsimp only
    rw [hg]
    dsimp only
    unfold ask_next_question
    rw [if_neg (by rw [generate_hints_for_pairs_length]; simp)]
  · intro hg
    unfold receive_num
    rw [if_neg (by simp [hst])]
    dsimp only
    rw [hg]
    rfl

/-- C8 witness: input "25" in stage WaitNum stores the clamp 20 (the error
path keeps it after the event). -/
theorem c8_witness :
    (receive_num ctxNoCreds ['2', '5'] { stage := .WAIT_NUM }).1.num_questions = 20 ∧
    (1 ≤ max 1 (min 20 (digitsToNat ['2', '5'])) ∧ max 1 (min 20 (digitsToNat ['2', '5'])) ≤ 20) :=
  ⟨(c8_clamped_count ctxNoCreds { stage := .WAIT_NUM } ['2', '5'] rfl (by decide)).2.2.1
     "Не удалось выделить предложения из текста." (by rfl),
   (c8_clamped_count ctxNoCreds { stage := .WAIT_NUM } ['2', '5'] rfl (by decide)).1,
   (c8_clamped_count ctxNoCreds { stage := .WAIT_NUM } ['2', '5'] rfl (by decide)).2.1⟩

/-- C8 counterexample: a reachable run where the numeric event "2" is
accepted in stage WaitNum (clamp = 2) but, because the submitted text yields
zero items, the session's stored requested count is 0 — not the clamp —
once the event finishes. -/
theorem c8_counterexample :
    (runEvents ctxNoCreds {} [.msg shortWordsText2, .cbQuiz, .msg ['2']]).1.num_questions = 0 ∧
    max 1 (min 20 (digitsToNat ['2'])) = 2 := by
  constructor
  · decide
  · decide

/-! ## Claim C2 -/

/-- C2 (amended): for every reachable session state, `idx` stays within
`[0, len(qa)]`; but the non-emptiness invariant does not hold as claimed — a
200+-character text arriving in any state (in particular mid-quiz) moves the
stage to ChooseAction while leaving the items list exactly as it was, so the
items survive (possibly non-empty) outside Asking/WaitAnswer. -/
theorem c2_index_invariant (ctx : Ctx) (s : UserSession) (h : Reachable ctx s) :
    s.idx ≤ s.qa.length ∧
    ∀ t : List Char, 200 ≤ t.length →
      (step ctx s (.msg t)).1.stage = .CHOOSE_ACTION ∧ (step ctx s (.msg t)).1.qa = s.qa := by
  refine ⟨(reachable_sessionInv ctx s h).1, ?_⟩
  intro t ht
  simp only [step]
  rw [if_pos ht]
  exact ⟨rfl, rfl⟩

/-- C2 witness: from the fresh session, a 200-character text moves the stage
to ChooseAction with the (empty) items list unchanged. -/
theorem c2_witness :
    ({} : UserSession).idx ≤ ({} : UserSession).qa.length ∧
    (step ctxNoCreds {} (.msg longWordText)).1.stage = .CHOOSE_ACTION :=
  ⟨(c2_index_invariant ctxNoCreds {} Reachable.init).1,
   ((c2_index_invariant ctxNoCreds {} Reachable.init).2 longWordText (by decide)).1⟩

/-- C2 counterexample: a reachable run (text, quiz, "1", then a second
200-character text mid-quiz) ends in stage ChooseAction with a NON-empty
items list — refuting both "items is non-empty only when the stage is
Asking/WaitAnswer" and "after a 200+-character text arrives mid-quiz ...
the items list is empty". -/
theorem c2_counterexample :
    (runEvents ctxNoCreds {} [.msg longWordText, .cbQuiz, .msg ['1'], .msg longWordText]).1.stage
      = .CHOOSE_ACTION ∧
    (runEvents ctxNoCreds {} [.msg longWordText, .cbQuiz, .msg ['1'], .msg longWordText]).1.qa
      ≠ [] := by
  constructor
  · decide
  · decide

/-! ## Claim C9 -/

/-- C9: in every reachable state with stage WaitAnswer the current index is
strictly below the item count, so the Reveal handler's unguarded
`session.qa[session.idx]` lookup never raises `IndexError` (on any reachable
state, `on_reveal` never reports an index error). -/
theorem c9_reveal_lookup_safe (ctx : Ctx) (s : UserSession) (h : Reachable ctx s) :
    (s.stage = .WAIT_ANSWER → s.idx < s.qa.length) ∧
    Out.indexError ∉ (on_reveal ctx s).2 := by
  have hi := reachable_sessionInv ctx s h
  refine ⟨hi.2, ?_⟩
  unfold on_reveal
  split
  · simp
  · rename_i hstg
    rw [not_not] at hstg
    have hlt : s.idx < s.qa.length := hi.2 hstg
    cases hq : s.qa.get? s.idx with
    | none =>
      rw [List.get?_eq_none] at hq
      omega
    | some q =>
      dsimp only
      intro hmem
      rcases List.mem_cons.mp hmem with hc | hc
      · cases hc
      · exact ask_next_no_indexError ctx _ hc

/-- C9 witness: the reachable state after (text, quiz, "1") awaits an answer
with `idx = 0 < 1 = len(qa)`, and Reveal on it reports no index error. -/
theorem c9_witness :
    ((step ctxNoCreds (step ctxNoCreds (step ctxNoCreds {} (.msg longWordText)).1
        .cbQuiz).1 (.msg ['1'])).1.idx <
      (step ctxNoCreds (step ctxNoCreds (step ctxNoCreds {} (.msg longWordText)).1
        .cbQuiz).1 (.msg ['1'])).1.qa.length) ∧
    Out.indexError ∉ (on_reveal ctxNoCreds
      (step ctxNoCreds (step ctxNoCreds (step ctxNoCreds {} (.msg longWordText)).1
        .cbQuiz).1 (.msg ['1'])).1).2 :=
  ⟨(c9_reveal_lookup_safe ctxNoCreds _
      (Reachable.next (.msg ['1'])
        (Reachable.next .cbQuiz
          (Reachable.next (.msg longWordText) Reachable.init)))).1 (by decide),
   (c9_reveal_lookup_safe ctxNoCreds _
      (Reachable.next (.msg ['1'])
        (Reachable.next .cbQuiz
          (Reachable.next (.msg longWordText) Reachable.init)))).2⟩

/-! ## Claim C6 -/

/-- C6: round outcomes are deterministic.  From the state in which a round
with exactly the two items `[q1, q2]` has just started (first question
presented, counters zeroed), submitting a correct answer to each question
ends the round with statistics `correct = 2, wrong = 0` (out of 2) and the
session reset to defaults (stage Idle); pressing Reveal twice instead ends
it with `correct = 0, wrong = 2` and the same reset. -/
theorem c6_round_determinism (ctx : Ctx) (tx : List Char) (nq : Nat) (q1 q2 : QAPair)
    (a1 a2 : List Char)
    (hc1 : is_correct ctx.ratioFn a1 q1.answer = true)
    (hc2 : is_correct ctx.ratioFn a2 q2.answer = true)
    (hl1 : a1.length < 200) (hd1 : isDigits12 a1 = false) (hn1 : a1.isEmpty = false)
    (hl2 : a2.length < 200) (hd2 : isDigits12 a2 = false) (hn2 : a2.isEmpty = false) :
    ((runEvents ctx ⟨tx, nq, [q1, q2], 0, 0, 0, .WAIT_ANSWER⟩ [.msg a1, .msg a2]).1 = {} ∧
     Out.stats 2 0 2 ∈
       (runEvents ctx ⟨tx, nq, [q1, q2], 0, 0, 0, .WAIT_ANSWER⟩ [.msg a1, .msg a2]).2) ∧
    ((runEvents ctx ⟨tx, nq, [q1, q2], 0, 0, 0, .WAIT_ANSWER⟩ [.cbReveal, .cbReveal]).1 = {} ∧
     Out.stats 0 2 2 ∈
       (runEvents ctx ⟨tx, nq, [q1, q2], 0, 0, 0, .WAIT_ANSWER⟩ [.cbReveal, .cbReveal]).2) := by
  have hc2' : is_correct ctx.ratioFn a2 (ensure_hint ctx q2).answer = true := by
    rw [ensure_hint_answer]; exact hc2
  have hnle1 : ¬ (200 ≤ a1.length) := Nat.not_le.mpr hl1
  have hnle2 : ¬ (200 ≤ a2.length) := Nat.not_le.mpr hl2
  constructor
  · constructor <;>
      simp [runEvents, step, receive_answer, ask_next_question, send_stats,
            hnle1, hnle2, hd1, hd2, hn1, hn2, hc1, hc2', List.getD, List.set]
  · constructor <;>
      simp [runEvents, step, on_reveal, ask_next_question, send_stats,
            List.getD, List.set]

/-- C6 witness: a concrete two-question round, answered correctly twice and
revealed twice. -/
theorem c6_witness :
    ((runEvents ctxNoCreds
        ⟨[], 2, [{ question := "Q1".toList, answer := "alpha".toList, hint_image := none },
                 { question := "Q2".toList, answer := "beta".toList, hint_image := none }],
         0, 0, 0, .WAIT_ANSWER⟩
        [.msg "alpha".toList, .msg "beta".toList]).1 = {} ∧
     Out.stats 2 0 2 ∈
       (runEvents ctxNoCreds
        ⟨[], 2, [{ question := "Q1".toList, answer := "alpha".toList, hint_image := none },
                 { question := "Q2".toList, answer := "beta".toList, hint_image := none }],
         0, 0, 0, .WAIT_ANSWER⟩
        [.msg "alpha".toList, .msg "beta".toList]).2) ∧
    ((runEvents ctxNoCreds
        ⟨[], 2, [{ question := "Q1".toList, answer := "alpha".toList, hint_image := none },
                 { question := "Q2".toList, answer := "beta".toList, hint_image := none }],
         0, 0, 0, .WAIT_ANSWER⟩
        [.cbReveal, .cbReveal]).1 = {} ∧
     Out.stats 0 2 2 ∈
       (runEvents ctxNoCreds
        ⟨[], 2, [{ question := "Q1".toList, answer := "alpha".toList, hint_image := none },
                 { question := "Q2".toList, answer := "beta".toList, hint_image := none }],
         0, 0, 0, .WAIT_ANSWER⟩
        [.cbReveal, .cbReveal]).2) :=
  c6_round_determinism ctxNoCreds [] 2
    { question := "Q1".toList, answer := "alpha".toList, hint_image := none }
    { question := "Q2".toList, answer := "beta".toList, hint_image := none }
    "alpha".toList "beta".toList
    (by decide) (by decide) (by decide) (by decide) (by decide)
    (by decide) (by decide) (by decide)
